import Mathlib

/-!
Shallow embedding of the authentication-code domain of `src/domain/auth.ts`
and `src/domain/authService.ts`.

Modelling conventions:
* JS `Date` values are instants in milliseconds since the epoch, as `Int`.
  `d.setMinutes(d.getMinutes() + n)` adds `n` minutes, i.e. `n * 60000` ms.
* `new Date()` (the ambient wall clock) is passed explicitly as a `now : Int`
  parameter; all samples of the clock within a single call are modelled as the
  same instant.
* JS `number` parameters are `Int` (the code only ever uses integral values);
  fields constrained by a zod schema to `int().min(0)` are `Nat`.
* `Math.random()` (a float in `[0, 1)`) is an explicit `random : ℚ` parameter.
* Injected async capabilities that may throw (`hashFn`) are total functions
  into `Option`: `none` models a thrown exception.
* neverthrow's `Result<T, E>` is the `Result` inductive below.
-/

namespace AuthDomain

/-- neverthrow `Result<T, E>`: `ok value` or `err error`. -/
inductive Result (α : Type) (ε : Type) where
  | ok (value : α)
  | err (error : ε)
deriving DecidableEq

/-- JS `x || d` applied to an optional numeric option field: an absent field
(`undefined`) and `0` are falsy and give the default `d`; any other number is
truthy and is kept. -/
def jsOr (x : Option Int) (d : Int) : Int :=
  match x with
  | none => d
  | some v => if v = 0 then d else v

/-- `d.setMinutes(d.getMinutes() + n)`: add `n` minutes to an instant. -/
def addMinutes (t : Int) (n : Int) : Int :=
  t + n * 60000

/-- `AuthValidationError` of `src/domain/auth.ts`: the single variant
`{ type: "AUTH_VALIDATION_ERROR", message }`. -/
structure AuthValidationError where
  message : String
deriving DecidableEq

/-- `AuthCodeGenerationError` of `src/domain/auth.ts`: the single variant
`{ type: "AUTH_CODE_GENERATION_ERROR", message }`. -/
structure AuthCodeGenerationError where
  message : String
deriving DecidableEq

/-- `AuthCodeVerificationError` of `src/domain/auth.ts`: a tagged union of the
four verification-time failures. -/
inductive AuthCodeVerificationError where
  | INVALID_AUTH_CODE (message : String) (remainingAttempts : Int)
  | AUTH_CODE_EXPIRED (message : String)
  | ACCOUNT_LOCKED (message : String) (unlockAt : Int)
  | VERIFICATION_FAILED (message : String)
deriving DecidableEq

/-- `UnvalidatedAuth` of `src/domain/auth.ts`: a raw `{ email }` object at the
boundary, before validation. -/
structure UnvalidatedAuth where
  email : String
deriving DecidableEq

/-- `ValidatedAuth` of `src/domain/auth.ts`: the branded `{ email }` object
produced by `validateAuth`. -/
structure ValidatedAuth where
  email : String
deriving DecidableEq

/-- `AuthCodeInfo` of `src/domain/auth.ts`: plaintext code, hash, expiry and
attempt count. `attempts` is `Nat` because the schema constrains it to
`z.number().int().min(0)`. -/
structure AuthCodeInfo where
  authCode : String
  hashedAuthCode : String
  expiresAt : Int
  attempts : Nat
deriving DecidableEq

/-- `UnverifiedAuth` of `src/domain/auth.ts`: the issued-but-unverified record.
`attempts` is `Nat` (schema: `z.number().int().min(0)`); `id` is the string
produced by `createId` (a UUID). -/
structure UnverifiedAuth where
  info : ValidatedAuth
  authCode : String
  hashedAuthCode : String
  expiresAt : Int
  attempts : Nat
  id : String
  createdAt : Int
deriving DecidableEq

/-- `authCodeSchema` = `z.string().length(6).regex(/^\d+$/)`: exactly six
characters, all ASCII digits (length six makes the `+` nonemptiness automatic). -/
def authCodeSchemaCheck (s : String) : Bool :=
  s.length == 6 && s.data.all (fun c => c.isDigit)

/-- Occurrence of two consecutive dots, the regex lookahead `(?!.*\.\.)`. -/
def hasDoubleDot : List Char → Bool
  | c1 :: c2 :: rest => (c1 == '.' && c2 == '.') || hasDoubleDot (c2 :: rest)
  | _ => false

/-- zod v3 `z.string().email()` check, modelling zod's email regexp
`(?!\.)(?!.*\.\.)([A-Za-z0-9_'+\-\.]*)[A-Za-z0-9_+-]@([A-Za-z0-9][A-Za-z0-9\-]*\.)+[A-Za-z]{2,}`
anchored at both ends: a nonempty local part over `[A-Za-z0-9_'+.-]` not
starting with a dot, containing no `..`, ending in `[A-Za-z0-9_+-]`, one `@`,
then one or more labels (alphanumeric start, then alphanumerics or hyphens)
separated by dots, the last label being at least two letters. -/
def emailFormatOk (s : String) : Bool :=
  let cs := s.data
  let localCharOk : Char → Bool := fun c =>
    c.isAlpha || c.isDigit || c == '_' || c == '\'' || c == '+' || c == '-' || c == '.'
  let localLastOk : Char → Bool := fun c =>
    c.isAlpha || c.isDigit || c == '_' || c == '+' || c == '-'
  let labelCharOk : Char → Bool := fun c =>
    c.isAlpha || c.isDigit || c == '-'
  match cs.splitOn '@' with
  | [localPart, domainPart] =>
    (!localPart.isEmpty)
      && localPart.all localCharOk
      && localLastOk (localPart.getLastD ' ')
      && (localPart.headD ' ' != '.')
      && !(hasDoubleDot cs)
      && (match (domainPart.splitOn '.').reverse with
          | tld :: labels =>
            decide (2 ≤ tld.length) && tld.all (fun c => c.isAlpha)
              && !labels.isEmpty
              && labels.all (fun l =>
                   !l.isEmpty
                     && (l.headD ' ').isAlphanum
                     && l.all labelCharOk)
          | [] => false)
  | _ => false

/-- `validatedAuthSchema` (= `baseIdentifierSchema.brand`):
`z.object({ email: z.string().email().max(255) })` — the parse succeeds exactly
when the email passes the email-format check and has length at most 255. -/
def validatedAuthSchemaCheck (email : String) : Bool :=
  emailFormatOk email && email.length ≤ 255

/-- The prohibited-domain list of `validateAuth`. -/
def prohibitedDomains : List String :=
  ["example.org", "temp-mail.com"]

/-- JS `email.split('@')[1]`: the second chunk of the `'@'`-separated split,
`none` when the string contains no `'@'` (computed on the character list so
that it reduces definitionally). -/
def jsDomainOf (email : String) : Option String :=
  ((email.data.splitOn '@').map (fun cs => (⟨cs⟩ : String))).get? 1

/-- `validateAuth` of `src/domain/authService.ts`: zod-parse the input, then
reject emails whose domain (`email.split('@')[1]`, when defined and nonempty —
JS truthiness) is in the prohibited list. -/
def validateAuth (unvalidatedAuth : UnvalidatedAuth) :
    Result ValidatedAuth AuthValidationError :=
  if validatedAuthSchemaCheck unvalidatedAuth.email then
    let email := unvalidatedAuth.email
    match jsDomainOf email with
    | some domain =>
      if !domain.isEmpty && prohibitedDomains.contains domain then
        .err ⟨"このドメインの認証識別子は利用できません"⟩
      else
        .ok ⟨email⟩
    | none => .ok ⟨email⟩
  else
    .err ⟨"認証識別子の検証に失敗しました"⟩

/-- Model of JS `Number.prototype.toString()` for a nonnegative integral
number: its base-10 digit string, most significant digit first. -/
def jsNumberToString (n : Nat) : String :=
  if n = 0 then "0"
  else ⟨(Nat.digits 10 n).reverse.map (fun d => Char.ofNat (48 + d))⟩

/-- `generateAuthCode` of `src/domain/authService.ts`:
`Math.floor(100000 + Math.random() * 900000).toString()`, with the ambient
`Math.random()` output passed explicitly as `random`. -/
def generateAuthCode (random : ℚ) : String :=
  jsNumberToString (Int.floor ((100000 : ℚ) + random * 900000)).toNat

/-- `options.generateAuthCodeFn || generateAuthCode`: the resolved code
generator; the default closes over the ambient `Math.random()` output. -/
def resolvedAuthCodeGenerator (g : Option (Unit → String)) (random : ℚ) :
    Unit → String :=
  match g with
  | some f => f
  | none => fun _ => generateAuthCode random

/-- `generateAuthCodeInfo` of `src/domain/authService.ts`. `hashFn` is the
resolved hash capability (`options.hashFn || secureHash`), with `none`
modelling a thrown exception; the `hashedAuthCodeSchema` re-parse is
`z.string()` and always succeeds on a string, so it introduces no branch. -/
def generateAuthCodeInfo (now : Int) (random : ℚ)
    (generateAuthCodeFn : Option (Unit → String))
    (hashFn : String → Option String)
    (expirationMinutes : Option Int) :
    Result AuthCodeInfo AuthCodeGenerationError :=
  let authCodeGenerator := resolvedAuthCodeGenerator generateAuthCodeFn random
  let em := jsOr expirationMinutes 30
  let authCodeValue := authCodeGenerator ()
  if authCodeSchemaCheck authCodeValue then
    match hashFn authCodeValue with
    | none => .err ⟨"認証コードのハッシュ化に失敗しました"⟩
    | some hashedAuthCodeValue =>
      .ok { authCode := authCodeValue
            hashedAuthCode := hashedAuthCodeValue
            expiresAt := addMinutes now em
            attempts := 0 }
  else
    .err ⟨"認証コードの生成に失敗しました: 形式が不正です"⟩

/-- `createUnverifiedAuth` of `src/domain/authService.ts`: build the code info,
forward its error unchanged, otherwise assemble the record with the fresh id
produced by `createId` (passed as `newId`) and `createdAt = now`. -/
def createUnverifiedAuth (now : Int) (validatedAuth : ValidatedAuth)
    (newId : String) (random : ℚ)
    (generateAuthCodeFn : Option (Unit → String))
    (hashFn : String → Option String)
    (expirationMinutes : Option Int) :
    Result UnverifiedAuth AuthCodeGenerationError :=
  match generateAuthCodeInfo now random generateAuthCodeFn hashFn expirationMinutes with
  | .err e => .err e
  | .ok authCodeInfo =>
    .ok { info := validatedAuth
          authCode := authCodeInfo.authCode
          hashedAuthCode := authCodeInfo.hashedAuthCode
          expiresAt := authCodeInfo.expiresAt
          attempts := authCodeInfo.attempts
          id := newId
          createdAt := now }

/-- `checkAuthCodeExpiration` of `src/domain/authService.ts`: fail with
`AUTH_CODE_EXPIRED` when `new Date() > expiresAt`, otherwise return the record
unchanged. -/
def checkAuthCodeExpiration (now : Int) (unverifiedAuth : UnverifiedAuth) :
    Result UnverifiedAuth AuthCodeVerificationError :=
  if now > unverifiedAuth.expiresAt then
    .err (.AUTH_CODE_EXPIRED
      "認証コードの有効期限が切れています。新しいコードを送信してください。")
  else
    .ok unverifiedAuth

/-- `checkMaxAttemptsReached` of `src/domain/authService.ts`: when
`attempts >= maxAttempts` (default parameter 5), fail with `ACCOUNT_LOCKED`
and `unlockAt` ten minutes from now; otherwise return the record unchanged. -/
def checkMaxAttemptsReached (now : Int) (unverifiedAuth : UnverifiedAuth)
    (maxAttempts : Int := 5) :
    Result UnverifiedAuth AuthCodeVerificationError :=
  if (unverifiedAuth.attempts : Int) ≥ maxAttempts then
    .err (.ACCOUNT_LOCKED
      "セキュリティのため、このアカウントは一時的にロックされています。しばらく経ってから再度お試しください。"
      (addMinutes now 10))
  else
    .ok unverifiedAuth

/-- `verifyAuthCode` of `src/domain/authService.ts`: resolve
`maxAttempts = options.maxAttempts || 5`, run the injected verify capability
(`options.verifyAuthCodeFn || verifySecureHash`, passed resolved as
`verifyAuthCodeFn`); on mismatch fail with `INVALID_AUTH_CODE` and
`remainingAttempts = maxAttempts - (currentAttempts + 1)`, otherwise `ok true`. -/
def verifyAuthCode (inputAuthCode : String) (hashedCorrectAuthCode : String)
    (currentAttempts : Int)
    (optMaxAttempts : Option Int)
    (verifyAuthCodeFn : String → String → Bool) :
    Result Bool AuthCodeVerificationError :=
  let maxAttempts := jsOr optMaxAttempts 5
  let isEqual := verifyAuthCodeFn inputAuthCode hashedCorrectAuthCode
  if !isEqual then
    let remainingAttempts := maxAttempts - (currentAttempts + 1)
    .err (.INVALID_AUTH_CODE
      s!"認証コードが無効です。再度お試しください（残り試行回数: {remainingAttempts}回）"
      remainingAttempts)
  else
    .ok true

/-- A concrete `UnverifiedAuth` record with the given attempt count, used to
instantiate general theorems at concrete inputs. -/
def sampleRecord (attempts : Nat) : UnverifiedAuth :=
  { info := ⟨"test@example.com"⟩
    authCode := "123456"
    hashedAuthCode := "hashed-123456"
    expiresAt := 1800000
    attempts := attempts
    id := "11111111-2222-3333-4444-555555555555"
    createdAt := 0 }

/-- C1: for every input code, hashed code, current attempt count and
`maxAttempts` option (resolved with default 5), `verifyAuthCode` checks
neither expiry nor the attempt count itself: when the injected verify
capability reports a match it returns `ok true` regardless of
`currentAttempts`, and when it reports a mismatch it returns
`INVALID_AUTH_CODE` with `remainingAttempts = maxAttempts -
(currentAttempts + 1)` — in particular also when that value is `0`, and never
`ACCOUNT_LOCKED`. -/
theorem verifyAuthCode_spec (inp hc : String) (ca : Int) (m : Option Int)
    (f : String → String → Bool) :
    (f inp hc = true → verifyAuthCode inp hc ca m f = .ok true) ∧
    (f inp hc = false → ∃ msg, verifyAuthCode inp hc ca m f =
      .err (.INVALID_AUTH_CODE msg (jsOr m 5 - (ca + 1)))) := by
  refine ⟨fun h => ?_, fun h => ?_⟩ <;> simp [verifyAuthCode, h]

/-- Witness for C1 at `currentAttempts = 4`, default `maxAttempts` (5):
the mismatch branch yields `remainingAttempts = 0` and still
`INVALID_AUTH_CODE`. -/
theorem verifyAuthCode_spec_witness :
    ((fun (_ : String) (_ : String) => false) "000000" "hashed-123456" = false) ∧
    (∃ msg, verifyAuthCode "000000" "hashed-123456" 4 none
        (fun _ _ => false) =
      .err (.INVALID_AUTH_CODE msg (jsOr none 5 - (4 + 1)))) :=
  ⟨rfl, (verifyAuthCode_spec "000000" "hashed-123456" 4 none
    (fun _ _ => false)).2 rfl⟩

/-- C2: for every record and every `maxAttempts` (default parameter 5),
`checkMaxAttemptsReached` returns the record unchanged exactly when
`attempts < maxAttempts`; when `attempts ≥ maxAttempts` it fails with
`ACCOUNT_LOCKED` whose `unlockAt` is the current time plus 10 minutes. -/
theorem checkMaxAttemptsReached_spec (now : Int) (u : UnverifiedAuth)
    (maxAttempts : Int) :
    (checkMaxAttemptsReached now u maxAttempts = .ok u ↔
      (u.attempts : Int) < maxAttempts) ∧
    ((u.attempts : Int) ≥ maxAttempts →
      ∃ msg, checkMaxAttemptsReached now u maxAttempts =
        .err (.ACCOUNT_LOCKED msg (addMinutes now 10))) := by
  constructor
  · by_cases h : (u.attempts : Int) ≥ maxAttempts
    · simp [checkMaxAttemptsReached, h]
    · simp only [checkMaxAttemptsReached, if_neg h]
      simp
      omega
  · intro h
    simp [checkMaxAttemptsReached, h]

/-- Witness for C2 at `attempts = 5`, `maxAttempts = 5`, `now = 0`
(Scenario C: lock with `unlockAt` ten minutes later). -/
theorem checkMaxAttemptsReached_spec_witness :
    (((sampleRecord 5).attempts : Int) ≥ 5) ∧
    (∃ msg, checkMaxAttemptsReached 0 (sampleRecord 5) 5 =
      .err (.ACCOUNT_LOCKED msg (addMinutes 0 10))) :=
  ⟨by decide, (checkMaxAttemptsReached_spec 0 (sampleRecord 5) 5).2 (by decide)⟩

/-- C3: `checkAuthCodeExpiration` fails with `AUTH_CODE_EXPIRED` exactly when
the current time is strictly after `expiresAt`; otherwise it succeeds with
the record unchanged. -/
theorem checkAuthCodeExpiration_spec (now : Int) (u : UnverifiedAuth) :
    ((∃ msg, checkAuthCodeExpiration now u = .err (.AUTH_CODE_EXPIRED msg)) ↔
      now > u.expiresAt) ∧
    (now ≤ u.expiresAt → checkAuthCodeExpiration now u = .ok u) := by
  by_cases h : now > u.expiresAt
  · simp [checkAuthCodeExpiration, h]
  · simp [checkAuthCodeExpiration, h]

/-- Witness for C3: a record expiring at `1800000` is not expired at time
`1000` (Scenario-E-style check on the non-expired side). -/
theorem checkAuthCodeExpiration_spec_witness :
    ((1000 : Int) ≤ (sampleRecord 0).expiresAt) ∧
    checkAuthCodeExpiration 1000 (sampleRecord 0) = .ok (sampleRecord 0) :=
  ⟨by decide, (checkAuthCodeExpiration_spec 1000 (sampleRecord 0)).2 (by decide)⟩

/-- C9: zero-valued options hit the JS `||` default in `generateAuthCodeInfo`
(`expirationMinutes = 0` behaves as 30) and in `verifyAuthCode`
(`maxAttempts = 0` behaves as 5), but `checkMaxAttemptsReached` takes
`maxAttempts` as a plain default parameter, so `0` is used literally and every
record (whose `attempts`, a `Nat`, is always `≥ 0`) is reported locked. -/
theorem zeroOption_spec :
    (∀ (now : Int) (r : ℚ) (g : Option (Unit → String))
        (hashFn : String → Option String),
      generateAuthCodeInfo now r g hashFn (some 0) =
        generateAuthCodeInfo now r g hashFn (some 30)) ∧
    (∀ (inp hc : String) (ca : Int) (f : String → String → Bool),
      verifyAuthCode inp hc ca (some 0) f = verifyAuthCode inp hc ca (some 5) f) ∧
    (∀ (now : Int) (u : UnverifiedAuth),
      ∃ msg, checkMaxAttemptsReached now u 0 =
        .err (.ACCOUNT_LOCKED msg (addMinutes now 10))) := by
  refine ⟨fun now r g hashFn => rfl, fun inp hc ca f => rfl, fun now u => ?_⟩
  simp [checkMaxAttemptsReached, Int.natCast_nonneg]

/-- C10: `verifyAuthCode` does not clamp: on a mismatch with
`currentAttempts ≥ maxAttempts` (the resolved maximum), the returned
`INVALID_AUTH_CODE` carries `remainingAttempts = maxAttempts -
(currentAttempts + 1)`, a strictly negative integer. -/
theorem verifyAuthCode_negativeRemaining (inp hc : String) (ca : Int)
    (m : Option Int) (f : String → String → Bool)
    (hca : jsOr m 5 ≤ ca) (hf : f inp hc = false) :
    ∃ msg, verifyAuthCode inp hc ca m f =
      .err (.INVALID_AUTH_CODE msg (jsOr m 5 - (ca + 1))) ∧
      jsOr m 5 - (ca + 1) < 0 := by
  refine ⟨s!"認証コードが無効です。再度お試しください（残り試行回数: {jsOr m 5 - (ca + 1)}回）",
    ?_, by omega⟩
  simp [verifyAuthCode, hf]

/-- Witness for C10 at `currentAttempts = 7`, default `maxAttempts` (5):
`remainingAttempts = -3 < 0`. -/
theorem verifyAuthCode_negativeRemaining_witness :
    (jsOr none 5 ≤ (7 : Int)) ∧
    ((fun (_ : String) (_ : String) => false) "000000" "h" = false) ∧
    (∃ msg, verifyAuthCode "000000" "h" 7 none (fun _ _ => false) =
      .err (.INVALID_AUTH_CODE msg (jsOr none 5 - (7 + 1))) ∧
      jsOr none 5 - (7 + 1) < 0) :=
  ⟨by decide, rfl,
    verifyAuthCode_negativeRemaining "000000" "h" 7 none (fun _ _ => false)
      (by decide) rfl⟩

/-- C7: if the injected hash capability throws (modelled as `none`) during
issuance, `generateAuthCodeInfo` returns an `AuthCodeGenerationError` domain
error instead of propagating, `createUnverifiedAuth` forwards that error, and
neither operation produces a partial `AuthCodeInfo` or `UnverifiedAuth`. -/
theorem generateAuthCodeInfo_hashFailure (now : Int) (r : ℚ)
    (g : Option (Unit → String)) (hashFn : String → Option String)
    (em : Option Int) (va : ValidatedAuth) (newId : String)
    (hfail : hashFn (resolvedAuthCodeGenerator g r ()) = none) :
    (∃ e, generateAuthCodeInfo now r g hashFn em = .err e) ∧
    (∀ info, generateAuthCodeInfo now r g hashFn em ≠ .ok info) ∧
    (∃ e, createUnverifiedAuth now va newId r g hashFn em = .err e) ∧
    (∀ rec, createUnverifiedAuth now va newId r g hashFn em ≠ .ok rec) := by
  have hmain : ∃ e, generateAuthCodeInfo now r g hashFn em = .err e := by
    by_cases hc : authCodeSchemaCheck (resolvedAuthCodeGenerator g r ()) = true
    · refine ⟨⟨"認証コードのハッシュ化に失敗しました"⟩, ?_⟩
      simp [generateAuthCodeInfo, hc, hfail]
    · refine ⟨⟨"認証コードの生成に失敗しました: 形式が不正です"⟩, ?_⟩
      simp [generateAuthCodeInfo, hc]
  obtain ⟨e, he⟩ := hmain
  refine ⟨⟨e, he⟩, ?_, ⟨e, ?_⟩, ?_⟩
  · intro info hinfo
    rw [he] at hinfo
    exact absurd hinfo (by simp)
  · simp [createUnverifiedAuth, he]
  · intro rec hrec
    rw [createUnverifiedAuth, he] at hrec
    exact absurd hrec (by simp)

/-- Witness for C7: a hash capability that always throws, with an injected
generator producing `"123456"`. -/
theorem generateAuthCodeInfo_hashFailure_witness :
    ((fun (_ : String) => (none : Option String))
        (resolvedAuthCodeGenerator (some (fun _ => "123456")) 0 ()) = none) ∧
    ((∃ e, generateAuthCodeInfo 0 0 (some (fun _ => "123456"))
        (fun _ => none) none = .err e) ∧
      (∀ info, generateAuthCodeInfo 0 0 (some (fun _ => "123456"))
        (fun _ => none) none ≠ .ok info) ∧
      (∃ e, createUnverifiedAuth 0 ⟨"test@example.com"⟩ "id-2" 0
        (some (fun _ => "123456")) (fun _ => none) none = .err e) ∧
      (∀ rec, createUnverifiedAuth 0 ⟨"test@example.com"⟩ "id-2" 0
        (some (fun _ => "123456")) (fun _ => none) none ≠ .ok rec)) :=
  ⟨rfl, generateAuthCodeInfo_hashFailure 0 0 (some (fun _ => "123456"))
    (fun _ => none) none ⟨"test@example.com"⟩ "id-2" rfl⟩

/-- C4: a successful `createUnverifiedAuth` (injected generator producing a
schema-valid code, hash capability succeeding) returns a record with
`attempts = 0`, the fresh id produced by `createId`, `createdAt` the current
time, `expiresAt` the current time plus 30 minutes by default (or the supplied
nonzero `expirationMinutes`), and whose `hashedAuthCode` is the injected hash
function applied to its plaintext `authCode`. -/
theorem createUnverifiedAuth_spec (now : Int) (va : ValidatedAuth)
    (newId : String) (r : ℚ) (g : Unit → String)
    (hashFn : String → Option String) (hv : String) (em : Option Int)
    (hcode : authCodeSchemaCheck (g ()) = true)
    (hhash : hashFn (g ()) = some hv) :
    ∃ rec, createUnverifiedAuth now va newId r (some g) hashFn em = .ok rec ∧
      rec.attempts = 0 ∧ rec.id = newId ∧ rec.createdAt = now ∧
      rec.info = va ∧ rec.authCode = g () ∧ rec.hashedAuthCode = hv ∧
      hashFn rec.authCode = some rec.hashedAuthCode ∧
      (em = none → rec.expiresAt = addMinutes now 30) ∧
      (∀ m, em = some m → m ≠ 0 → rec.expiresAt = addMinutes now m) := by
  refine ⟨{ info := va, authCode := g (), hashedAuthCode := hv
            expiresAt := addMinutes now (jsOr em 30), attempts := 0
            id := newId, createdAt := now },
    ?_, rfl, rfl, rfl, rfl, rfl, rfl, ?_, ?_, ?_⟩
  · simp [createUnverifiedAuth, generateAuthCodeInfo,
      resolvedAuthCodeGenerator, hcode, hhash]
  · exact hhash
  · intro h
    subst h
    rfl
  · intro m hm hm0
    subst hm
    simp [jsOr, hm0]

/-- Witness for C4 with the fixed generator `"123456"`, hash `c ↦ "h" ++ c`,
default expiration. -/
theorem createUnverifiedAuth_spec_witness :
    authCodeSchemaCheck ((fun (_ : Unit) => "123456") ()) = true ∧
    ((fun (c : String) => some ("h" ++ c)) ((fun (_ : Unit) => "123456") ()) =
      some "h123456") ∧
    (∃ rec, createUnverifiedAuth 0 ⟨"test@example.com"⟩ "id-3" 0
        (some (fun _ => "123456")) (fun c => some ("h" ++ c)) none = .ok rec ∧
      rec.attempts = 0 ∧ rec.id = "id-3" ∧ rec.createdAt = 0 ∧
      rec.info = ⟨"test@example.com"⟩ ∧
      rec.authCode = (fun (_ : Unit) => "123456") () ∧
      rec.hashedAuthCode = "h123456" ∧
      (fun (c : String) => some ("h" ++ c)) rec.authCode =
        some rec.hashedAuthCode ∧
      ((none : Option Int) = none → rec.expiresAt = addMinutes 0 30) ∧
      (∀ m, (none : Option Int) = some m → m ≠ 0 →
        rec.expiresAt = addMinutes 0 m)) :=
  ⟨by decide, rfl,
    createUnverifiedAuth_spec 0 ⟨"test@example.com"⟩ "id-3" 0
      (fun _ => "123456") (fun c => some ("h" ++ c)) "h123456" none
      (by decide) rfl⟩

/-- Counterexample to C8 as stated: with `expirationMinutes = -1`
(an allowed `number`), `createUnverifiedAuth` succeeds and produces a record
whose `expiresAt` (−60000 ms) is not greater than its `createdAt` (0). -/
theorem createUnverifiedAuth_expiresAt_counterexample :
    createUnverifiedAuth 0 ⟨"test@example.com"⟩ "id-4" 0
        (some (fun _ => "123456")) (fun c => some ("h" ++ c)) (some (-1)) =
      .ok { info := ⟨"test@example.com"⟩, authCode := "123456"
            hashedAuthCode := "h123456", expiresAt := -60000, attempts := 0
            id := "id-4", createdAt := 0 } ∧
    ¬ ((-60000 : Int) > (0 : Int)) :=
  ⟨by decide, by decide⟩

/-- Expiry timestamp of any successful `generateAuthCodeInfo`: the current
time plus the resolved expiration minutes. -/
theorem generateAuthCodeInfo_ok_expiresAt (now : Int) (r : ℚ)
    (g : Option (Unit → String)) (hashFn : String → Option String)
    (em : Option Int) (info : AuthCodeInfo)
    (h : generateAuthCodeInfo now r g hashFn em = .ok info) :
    info.expiresAt = addMinutes now (jsOr em 30) := by
  simp only [generateAuthCodeInfo] at h
  split at h
  · split at h
    · exact absurd h (by simp)
    · rw [Result.ok.injEq] at h
      subst h
      rfl
  · exact absurd h (by simp)

/-- C8 amended: every record produced by `createUnverifiedAuth` whose resolved
expiration (`expirationMinutes || 30`) is positive — i.e. for every option
value except an explicitly negative `expirationMinutes` — satisfies
`expiresAt > createdAt`. -/
theorem createUnverifiedAuth_expiresAt_invariant (now : Int)
    (va : ValidatedAuth) (newId : String) (r : ℚ)
    (g : Option (Unit → String)) (hashFn : String → Option String)
    (em : Option Int) (hm : 0 < jsOr em 30) (rec : UnverifiedAuth)
    (h : createUnverifiedAuth now va newId r g hashFn em = .ok rec) :
    rec.expiresAt > rec.createdAt := by
  rw [createUnverifiedAuth] at h
  cases hg : generateAuthCodeInfo now r g hashFn em with
  | err e =>
    rw [hg] at h
    exact absurd h (by simp)
  | ok info =>
    rw [hg] at h
    have hexp := generateAuthCodeInfo_ok_expiresAt now r g hashFn em info hg
    rw [Result.ok.injEq] at h
    subst h
    simp only [addMinutes] at hexp
    simp only [hexp, addMinutes]
    omega

/-- Witness for C8 amended: default options (resolved expiration 30 min),
`now = 0` — the produced record expires at 1800000 ms. -/
theorem createUnverifiedAuth_expiresAt_invariant_witness :
    (0 < jsOr none 30) ∧
    ({ info := ⟨"test@example.com"⟩, authCode := "123456"
       hashedAuthCode := "h123456", expiresAt := 1800000, attempts := 0
       id := "id-5", createdAt := 0 } : UnverifiedAuth).expiresAt >
      ({ info := ⟨"test@example.com"⟩, authCode := "123456"
         hashedAuthCode := "h123456", expiresAt := 1800000, attempts := 0
         id := "id-5", createdAt := 0 } : UnverifiedAuth).createdAt :=
  ⟨by decide,
    createUnverifiedAuth_expiresAt_invariant 0 ⟨"test@example.com"⟩ "id-5" 0
      (some (fun _ => "123456")) (fun c => some ("h" ++ c)) none (by decide)
      _ (by decide)⟩

/-- C5: `validateAuth` succeeds, returning the branded record carrying the
same email, exactly when the input passes the email-format check with length
at most 255 and its domain (`email.split('@')[1]`) is not prohibited; in every
other case it fails with the single `AUTH_VALIDATION_ERROR` kind. -/
theorem validateAuth_spec (u : UnvalidatedAuth) :
    ((∃ va, validateAuth u = .ok va ∧ va.email = u.email) ↔
      (emailFormatOk u.email = true ∧ u.email.length ≤ 255 ∧
        ∀ d, jsDomainOf u.email = some d → d ∉ prohibitedDomains)) ∧
    ((¬ (emailFormatOk u.email = true ∧ u.email.length ≤ 255 ∧
        ∀ d, jsDomainOf u.email = some d → d ∉ prohibitedDomains)) →
      ∃ msg, validateAuth u = .err ⟨msg⟩) := by
  by_cases hs : validatedAuthSchemaCheck u.email = true
  · have hparts : emailFormatOk u.email = true ∧ u.email.length ≤ 255 := by
      simpa [validatedAuthSchemaCheck] using hs
    cases hd : jsDomainOf u.email with
    | none =>
      constructor
      · constructor
        · intro _
          exact ⟨hparts.1, hparts.2, fun d hdd => by cases hdd⟩
        · intro _
          refine ⟨⟨u.email⟩, ?_, rfl⟩
          simp [validateAuth, hs, hd]
      · intro hbad
        exact absurd ⟨hparts.1, hparts.2, fun d hdd => by cases hdd⟩ hbad
    | some d =>
      by_cases hp : d.isEmpty = false ∧ d ∈ prohibitedDomains
      · constructor
        · constructor
          · intro ⟨va, hva, _⟩
            simp [validateAuth, hs, hd, hp] at hva
          · intro ⟨_, _, hall⟩
            exact absurd hp.2 (hall d rfl)
        · intro _
          refine ⟨"このドメインの認証識別子は利用できません", ?_⟩
          simp [validateAuth, hs, hd, hp]
      · have hdnot : d ∉ prohibitedDomains := by
          intro hmem
          apply hp
          refine ⟨?_, hmem⟩
          simp only [prohibitedDomains, List.mem_cons, List.mem_singleton,
            List.not_mem_nil, or_false] at hmem
          rcases hmem with h | h <;> subst h <;> decide
        constructor
        · constructor
          · intro _
            exact ⟨hparts.1, hparts.2, fun d' hdd => by cases hdd; exact hdnot⟩
          · intro _
            refine ⟨⟨u.email⟩, ?_, rfl⟩
            simp [validateAuth, hs, hd, hp]
        · intro hbad
          exact absurd
            ⟨hparts.1, hparts.2, fun d' hdd => by cases hdd; exact hdnot⟩ hbad
  · constructor
    · constructor
      · intro ⟨va, hva, _⟩
        rw [validateAuth, if_neg hs] at hva
        cases hva
      · intro ⟨h1, h2, _⟩
        exact absurd (by simp [validatedAuthSchemaCheck, h1, h2]) hs
    · intro _
      refine ⟨"認証識別子の検証に失敗しました", ?_⟩
      rw [validateAuth, if_neg hs]

/-- Witness for C5 at the prohibited identifier `"test@example.org"`
(Scenario B): validation fails with the `AUTH_VALIDATION_ERROR` kind. -/
theorem validateAuth_spec_witness :
    (¬ (emailFormatOk (UnvalidatedAuth.mk "test@example.org").email = true ∧
        (UnvalidatedAuth.mk "test@example.org").email.length ≤ 255 ∧
        ∀ d, jsDomainOf (UnvalidatedAuth.mk "test@example.org").email =
            some d → d ∉ prohibitedDomains)) ∧
    (∃ msg, validateAuth ⟨"test@example.org"⟩ = .err ⟨msg⟩) :=
  ⟨fun ⟨_, _, hall⟩ => (hall "example.org" (by decide)) (by decide),
    (validateAuth_spec ⟨"test@example.org"⟩).2
      (fun ⟨_, _, hall⟩ => (hall "example.org" (by decide)) (by decide))⟩

/-- A character built from `48 + d` with `d < 10` is an ASCII digit. -/
theorem charOfNat_digit_isDigit (d : ℕ) (hd : d < 10) :
    (Char.ofNat (48 + d)).isDigit = true := by
  interval_cases d <;> decide

/-- Code point of a character built from `48 + d` with `d < 10`. -/
theorem charOfNat_digit_toNat (d : ℕ) (hd : d < 10) :
    (Char.ofNat (48 + d)).toNat = 48 + d := by
  interval_cases d <;> decide

/-- Reading the digit characters back (`c.toNat - 48`) undoes the digit-list
to character-list encoding, provided every digit is below 10. -/
theorem map_char_digits_roundtrip (l : List ℕ) (hl : ∀ d ∈ l, d < 10) :
    (l.map (fun d => Char.ofNat (48 + d))).map (fun c => c.toNat - 48) = l := by
  induction l with
  | nil => rfl
  | cons d t ih =>
    rw [List.map_cons, List.map_cons]
    congr 1
    · rw [charOfNat_digit_toNat d (hl d (List.mem_cons_self d t))]
      omega
    · exact ih (fun x hx => hl x (List.mem_cons_of_mem d hx))

/-- The decimal string of any `n` between 100000 and 999999: six characters,
all digits, and reading them back base 10 recovers `n`. -/
theorem jsNumberToString_spec (n : ℕ) (hl : 100000 ≤ n) (hu : n ≤ 999999) :
    (jsNumberToString n).length = 6 ∧
    (∀ c ∈ (jsNumberToString n).data, c.isDigit = true) ∧
    Nat.ofDigits 10
      (((jsNumberToString n).data.map (fun c => c.toNat - 48)).reverse) = n := by
  have hne : n ≠ 0 := by omega
  have hdig : ∀ d ∈ Nat.digits 10 n, d < 10 :=
    fun d hd => Nat.digits_lt_base (by norm_num) hd
  rw [jsNumberToString, if_neg hne]
  refine ⟨?_, ?_, ?_⟩
  · show ((Nat.digits 10 n).reverse.map (fun d => Char.ofNat (48 + d))).length = 6
    rw [List.length_map, List.length_reverse,
      Nat.digits_len 10 n (by norm_num) hne]
    have h₁ : (10 : ℕ) ^ 5 ≤ n := by
      calc (10 : ℕ) ^ 5 = 100000 := by norm_num
        _ ≤ n := hl
    have h₂ : n < (10 : ℕ) ^ (5 + 1) := by
      calc n ≤ 999999 := hu
        _ < (10 : ℕ) ^ (5 + 1) := by norm_num
    rw [Nat.log_eq_of_pow_le_of_lt_pow h₁ h₂]
  · intro c hc
    have hc' : c ∈ (Nat.digits 10 n).reverse.map (fun d => Char.ofNat (48 + d)) := hc
    obtain ⟨d, hdm, rfl⟩ := List.mem_map.mp hc'
    exact charOfNat_digit_isDigit d (hdig d (List.mem_reverse.mp hdm))
  · show Nat.ofDigits 10
      ((((Nat.digits 10 n).reverse.map (fun d => Char.ofNat (48 + d))).map
        (fun c => c.toNat - 48)).reverse) = n
    rw [map_char_digits_roundtrip _ (fun d hd => hdig d (List.mem_reverse.mp hd)),
      List.reverse_reverse, Nat.ofDigits_digits]

/-- C6: for every possible output `r ∈ [0, 1)` of the random source,
`generateAuthCode` returns a string of exactly six ASCII digits whose base-10
numeric value lies in `[100000, 999999]`. -/
theorem generateAuthCode_spec (r : ℚ) (h0 : 0 ≤ r) (h1 : r < 1) :
    (generateAuthCode r).length = 6 ∧
    (∀ c ∈ (generateAuthCode r).data, c.isDigit = true) ∧
    100000 ≤ Nat.ofDigits 10
      (((generateAuthCode r).data.map (fun c => c.toNat - 48)).reverse) ∧
    Nat.ofDigits 10
      (((generateAuthCode r).data.map (fun c => c.toNat - 48)).reverse) ≤
      999999 := by
  have hfl : (100000 : ℤ) ≤ Int.floor ((100000 : ℚ) + r * 900000) := by
    rw [Int.le_floor]
    push_cast
    nlinarith [mul_nonneg h0 (by norm_num : (0 : ℚ) ≤ 900000)]
  have hfu : Int.floor ((100000 : ℚ) + r * 900000) < 1000000 := by
    rw [Int.floor_lt]
    push_cast
    nlinarith [mul_lt_mul_of_pos_right h1 (by norm_num : (0 : ℚ) < 900000)]
  have hnn : ((Int.floor ((100000 : ℚ) + r * 900000)).toNat : ℤ) =
      Int.floor ((100000 : ℚ) + r * 900000) :=
    Int.toNat_of_nonneg (by omega)
  have hln : 100000 ≤ (Int.floor ((100000 : ℚ) + r * 900000)).toNat := by omega
  have hun : (Int.floor ((100000 : ℚ) + r * 900000)).toNat ≤ 999999 := by omega
  have h := jsNumberToString_spec _ hln hun
  simp only [generateAuthCode]
  exact ⟨h.1, h.2.1, by rw [h.2.2]; exact hln, by rw [h.2.2]; exact hun⟩

/-- Witness for C6 at `r = 0` (the code is `"100000"`). -/
theorem generateAuthCode_spec_witness :
    (0 : ℚ) ≤ 0 ∧ (0 : ℚ) < 1 ∧
    ((generateAuthCode 0).length = 6 ∧
      (∀ c ∈ (generateAuthCode 0).data, c.isDigit = true) ∧
      100000 ≤ Nat.ofDigits 10
        (((generateAuthCode 0).data.map (fun c => c.toNat - 48)).reverse) ∧
      Nat.ofDigits 10
        (((generateAuthCode 0).data.map (fun c => c.toNat - 48)).reverse) ≤
        999999) :=
  ⟨le_refl 0, by norm_num, generateAuthCode_spec 0 (le_refl 0) (by norm_num)⟩

end AuthDomain
